import Mathlib

/-!
Verification of the platter repository (NOODLES 3D asset publisher).

This file gives a shallow embedding, in Lean 4, of the parts of the source
that the specification's claims are about:

* `src/dir_watcher.rs` — the directory-watch event loop (`handle_new_file`,
  the folder-creation handling in `launch_file_watcher`);
* `src/platter_state.rs` — the tag/scene state machine (`add_object`,
  `clear_source`, `handle_command`);
* `src/import_obj.rs` — the wavefront OBJ importer (`handle_v`, `handle_f`,
  `FaceDef::new`, `FaceDef::sanitize`, `push_object`, `pack_wf_state`,
  `get_concave_vertex`, `compute_quad`, `import_file`);
* `src/scene.rs` / `src/methods.rs` — the scene mutation facade
  (`Scene::set_rotation`, `Scene::update_transform`).

Modelling conventions:

* Rust `f32` values are modelled as exact rationals (`ℚ`) where the code does
  plain arithmetic on concrete decimal literals, and as reals (`ℝ`) where the
  code does square roots / arc-cosines (`normalize`, `acos`,
  quaternion normalization).  All concrete inputs used in theorems are small
  dyadic numbers, for which f32 arithmetic is exact, so the ℚ/ℝ model agrees
  with the f32 computation on every input the theorems touch.
* Rust `HashMap` values are modelled as association lists: `insert` replaces
  an existing binding or appends, `get` is the first matching binding.  The
  source iterates `HashMap`s in an unspecified order; whenever an iteration
  order matters to a theorem this is called out and the relevant property is
  proved for the orders in question.
* Panics (`unwrap` on `None`) are modelled with `Option`: a `none` result of
  an embedded function marks the panic path.
* File IO (reading the OBJ file) is modelled by passing the file's lines as a
  `List String`; the network/server collaborators (entity creation, the HTTP
  asset store) are modelled by recording the calls the code makes to them
  (entity references are numbered in creation order, `add_asset` /
  `remove_asset` calls are accumulated into lists).
-/

namespace Platter

/-! ## Directory watcher (src/dir_watcher.rs)

Paths are modelled as component lists; `Path::strip_prefix(base)` succeeds
exactly when `base`'s components are a prefix of the path's components.
-/

/-- A filesystem path, as its list of components. -/
abbrev FsPath := List String

/-- `arguments::Directory`: the configuration of one watched directory. -/
structure Directory where
  dir : FsPath
  load_existing : Bool
  latest_only : Bool
  organize_by_dir : Bool
deriving DecidableEq

/-- A tag is an opaque identifier (a UUID in the source); modelled as `Nat`. -/
abbrev Tag := Nat

/-- `platter_state::PlatterCommand`, restricted to the two variants the
watcher emits. -/
inductive WatchCommand where
  | loadFile (p : FsPath) (tag : Option Tag)
  | clearTag (tag : Tag)
deriving DecidableEq

/-- `dir_watcher::handle_new_file`: given the watch configuration, the
watcher's tag, the currently tracked latest subdirectory and the new file's
path, the list of commands sent on the channel, in order. -/
def handle_new_file (dir : Directory) (source_id : Tag) (latest : Option FsPath)
    (p : FsPath) : List WatchCommand :=
  if dir.organize_by_dir then
    match latest with
    | none => []          -- "New file, but no parent directory": early return
    | some lp =>
      if lp.isPrefixOf p then
        [.loadFile p (some source_id)]
      else
        []                -- strip_prefix failed: "not in latest directory"
  else
    (if dir.latest_only then [.clearTag source_id] else []) ++
      [.loadFile p (some source_id)]

/-- A filesystem notification, as classified by the watcher loop in
`launch_file_watcher`.  `fileArrived` stands for an event whose path reaches
`handle_new_file` (an `Access(Close)` event, or `Create(File)` on macOS);
`folderCreated` is a `Create(Folder)` event carrying its path list. -/
inductive WatchEvent where
  | fileArrived (p : FsPath)
  | folderCreated (paths : List FsPath)
deriving DecidableEq

/-- One iteration of the `launch_file_watcher` event loop: the commands sent
for the event, and the new value of the `latest_dir` state.  Folder creation
updates `latest_dir` (to the first path of the event) and emits a
`ClearTag`, but only when `organize_by_dir && latest_only`. -/
def watcherStep (dir : Directory) (source_id : Tag) (latest : Option FsPath) :
    WatchEvent → List WatchCommand × Option FsPath
  | .fileArrived p => (handle_new_file dir source_id latest p, latest)
  | .folderCreated paths =>
    if dir.organize_by_dir && dir.latest_only then
      ([.clearTag source_id], paths.head?)
    else
      ([], latest)

/-- The watcher loop run over a sequence of events, accumulating the emitted
command sequence and threading the `latest_dir` state. -/
def watcherRun (dir : Directory) (source_id : Tag) (latest : Option FsPath) :
    List WatchEvent → List WatchCommand × Option FsPath
  | [] => ([], latest)
  | e :: es =>
    let (cmds, latest') := watcherStep dir source_id latest e
    let (rest, latestF) := watcherRun dir source_id latest' es
    (cmds ++ rest, latestF)

/-- The path of the most recently created subdirectory in an event sequence
(first path of the last `folderCreated` event), if any.  This is the
spec-level notion the organize-by-directory claims refer to. -/
def lastCreatedDir (es : List WatchEvent) : Option FsPath :=
  es.foldl
    (fun acc e => match e with | .folderCreated paths => paths.head? | .fileArrived _ => acc)
    none

/-- Number of `loadFile` commands in a command list. -/
def countLoads (cmds : List WatchCommand) : Nat :=
  (cmds.filter fun c => match c with | .loadFile _ _ => true | .clearTag _ => false).length

/-! ## Association lists (model of Rust `HashMap`)

`insert` replaces an existing binding in place or appends a new one; `get`
is the first matching binding; `remove` drops the binding and returns it. -/

/-- `HashMap::insert`: replace the binding for `k` or append it. -/
def assocInsert {K V : Type} [BEq K] (k : K) (v : V) : List (K × V) → List (K × V)
  | [] => [(k, v)]
  | (k', v') :: rest => if k' == k then (k, v) :: rest else (k', v') :: assocInsert k v rest

/-- `HashMap::remove`: the removed value (if any) and the remaining bindings. -/
def assocRemove {K V : Type} [BEq K] (k : K) : List (K × V) → Option V × List (K × V)
  | [] => (none, [])
  | (k', v') :: rest =>
    if k' == k then (some v', rest)
    else
      let (r, l) := assocRemove k rest
      (r, (k', v') :: l)

/-! ## OBJ importer (src/import_obj.rs) -/

/-- Split a character list at every character satisfying `p`, keeping empty
pieces (the semantics of Rust `str::split`); written structurally so the
kernel can evaluate it. -/
def splitPred (p : Char → Bool) : List Char → List (List Char)
  | [] => [[]]
  | x :: xs =>
    if p x then [] :: splitPred p xs
    else
      match splitPred p xs with
      | [] => [[x]]
      | h :: t => (x :: h) :: t

/-- Rust `str::parse::<i32>()` on the token's characters: optional sign, then
one or more ASCII digits, value required to fit in `i32`. -/
def parseI32 (cs : List Char) : Option Int :=
  let sd : Int × List Char :=
    match cs with
    | '+' :: rest => (1, rest)
    | '-' :: rest => (-1, rest)
    | _ => (1, cs)
  if sd.2.isEmpty then none
  else if sd.2.all Char.isDigit then
    let mag : Nat := sd.2.foldl (fun acc c => acc * 10 + (c.toNat - '0'.toNat)) 0
    let val : Int := sd.1 * (mag : Int)
    if -(2 ^ 31) ≤ val ∧ val ≤ 2 ^ 31 - 1 then some val else none
  else none

/-- Rust `str::parse::<f32>()` on the token's characters, modelled exactly
over ℚ for plain decimal literals `[sign] digits [. digits]` (the only shape
any theorem below feeds it); other accepted f32 shapes (exponents, `inf`,
`nan`) are out of scope and parse to `none` here as they never occur in the
inputs under study. -/
def parseRat (cs : List Char) : Option ℚ :=
  let sd : ℚ × List Char :=
    match cs with
    | '+' :: rest => (1, rest)
    | '-' :: rest => (-1, rest)
    | _ => (1, cs)
  let natVal : List Char → ℚ :=
    fun ds => ((ds.foldl (fun acc c => acc * 10 + (c.toNat - '0'.toNat)) 0 : Nat) : ℚ)
  match splitPred (fun c => c = '.') sd.2 with
  | [i] =>
    if ¬i.isEmpty ∧ i.all Char.isDigit then some (sd.1 * natVal i) else none
  | [i, f] =>
    if (¬i.isEmpty ∨ ¬f.isEmpty) ∧ i.all Char.isDigit ∧ f.all Char.isDigit then
      some (sd.1 * (natVal i + natVal f / (10 ^ f.length : ℚ)))
    else none
  | _ => none

/-- Rust `str::split_whitespace`: split on whitespace runs, dropping empty
pieces. -/
def splitWhitespace (s : String) : List String :=
  ((splitPred Char.isWhitespace s.data).filter fun t => ¬t.isEmpty).map String.mk

/-- `import_obj::FaceDef`: one slash-delimited `v/t/n` corner of a face
directive. -/
structure FaceDef where
  v : Option Int
  t : Option Int
  n : Option Int
deriving DecidableEq, BEq

/-- `import_obj::FaceMarker`: a corner definition or the end of one face. -/
inductive FaceMarker where
  | Def (f : FaceDef)
  | End
deriving DecidableEq, BEq

/-- `import_obj::WFObjectState` (minus the handler function table, which is
encoded in `WFObjectState.handle` below). -/
structure WFObjectState where
  vert_list : List (ℚ × ℚ × ℚ)
  normal_list : List (ℚ × ℚ × ℚ)
  tex_list : List (ℚ × ℚ × ℚ)
  obj_face_list : List (String × List FaceMarker)
  last_name : String
  last_face_list : List FaceMarker
deriving DecidableEq

/-- `WFObjectState::new` (the function table itself is not data here). -/
def WFObjectState.new : WFObjectState :=
  { vert_list := [], normal_list := [], tex_list := [],
    obj_face_list := [], last_name := "", last_face_list := [] }

/-- `FaceDef::new`: split on `/`, take 3, parse each as `i32`; the match on
which components parsed mirrors the source's four-arm match (any shape whose
first component is missing collapses to the all-`None` definition). -/
def FaceDef.new (definition : String) : FaceDef :=
  let parts := (splitPred (fun c => c = '/') definition.data).take 3
  let a := (parts.get? 0).bind parseI32
  let b := (parts.get? 1).bind parseI32
  let c := (parts.get? 2).bind parseI32
  match a, b, c with
  | some av, some bv, some cv => ⟨some av, some bv, some cv⟩
  | some av, none,    some cv => ⟨some av, none, some cv⟩
  | some av, some bv, none    => ⟨some av, some bv, none⟩
  | some av, none,    none    => ⟨some av, none, none⟩
  | none,    _,       _       => ⟨none, none, none⟩

/-- `FaceDef::sanitize`: resolve 1-based / negative-from-end indices against
the current directive lists (lengths as `i32`, modelled as `Int`). -/
def FaceDef.sanitize (self : FaceDef) (vert_list normal_list tex_list : List (ℚ × ℚ × ℚ)) :
    FaceDef :=
  { v := self.v.map fun x => if x < 0 then (vert_list.length : Int) + x else x - 1,
    n := self.n.map fun x => if x < 0 then (normal_list.length : Int) + x else x - 1,
    t := self.t.map fun x => if x < 0 then (tex_list.length : Int) + x else x - 1 }

/-- `import_obj::handle_v`.  The source fills `v = [0,0,0,1,1,1]` from up to
six parsed tokens, recording in `c` the index of the LAST token written (not
the token count), then matches `c` against `4` (homogeneous divide) and `6`
(trailing color, a no-op); `v[3] = 1.0` after the divide does not affect the
pushed `[v0,v1,v2]`.  ℚ stands in for f32 (division by a zero `w`, f32 `inf`,
is not exercised by any theorem). -/
def handle_v (obj : WFObjectState) (line : List String) : WFObjectState :=
  let vc := (line.take 6).enum.foldl
    (fun (p : List ℚ × Nat) ic => (p.1.set ic.1 ((parseRat ic.2.data).getD 0), ic.1))
    (([0, 0, 0, 1, 1, 1] : List ℚ), 0)
  let v := vc.1
  let pos : ℚ × ℚ × ℚ :=
    match vc.2 with
    | 4 => (v.getD 0 0 / v.getD 3 0, v.getD 1 0 / v.getD 3 0, v.getD 2 0 / v.getD 3 0)
    | 6 => (v.getD 0 0, v.getD 1 0, v.getD 2 0)   -- "has color. Clamp?" (no-op)
    | _ => (v.getD 0 0, v.getD 1 0, v.getD 2 0)
  { obj with vert_list := obj.vert_list ++ [pos] }

/-- `import_obj::handle_vn`: three `next()` calls, each
`unwrap_or_default().parse().unwrap_or_default()`. -/
def handle_vn (obj : WFObjectState) (line : List String) : WFObjectState :=
  let g : Nat → ℚ := fun i => ((line.get? i).bind fun t => parseRat t.data).getD 0
  { obj with normal_list := obj.normal_list ++ [(g 0, g 1, g 2)] }

/-- `import_obj::handle_vt`: same shape as `handle_vn`. -/
def handle_vt (obj : WFObjectState) (line : List String) : WFObjectState :=
  let g : Nat → ℚ := fun i => ((line.get? i).bind fun t => parseRat t.data).getD 0
  { obj with tex_list := obj.tex_list ++ [(g 0, g 1, g 2)] }

/-- `import_obj::handle_f`: every token of the face line is parsed and
sanitized against the directive lists AS THEY ARE at this line, then an
end-of-face marker is appended. -/
def handle_f (obj : WFObjectState) (line : List String) : WFObjectState :=
  { obj with
    last_face_list := obj.last_face_list ++
      (line.map fun f =>
        FaceMarker.Def ((FaceDef.new f).sanitize obj.vert_list obj.normal_list obj.tex_list)) ++
      [FaceMarker.End] }

/-- `WFObjectState::push_object`: flush the accumulated face list under the
current name (empty name becomes "Unknown"); a no-op when no faces are
pending.  `last_name` is NOT cleared by the source. -/
def push_object (obj : WFObjectState) : WFObjectState :=
  if obj.last_face_list.isEmpty then obj
  else
    let name := if obj.last_name.data.isEmpty then "Unknown" else obj.last_name
    { obj with
      obj_face_list := assocInsert name obj.last_face_list obj.obj_face_list,
      last_face_list := [] }

/-- `import_obj::handle_o`: flush the previous object, then take the next
token as the new name (default "Unknown"). -/
def handle_o (obj : WFObjectState) (line : List String) : WFObjectState :=
  let obj := push_object obj
  { obj with last_name := (line.head?).getD "Unknown" }

/-- `WFObjectState::handle`: dispatch on the first whitespace token through
the handler table; unknown directives and empty lines are skipped. -/
def WFObjectState.handle (obj : WFObjectState) (line : String) : WFObjectState :=
  match splitWhitespace line with
  | [] => obj
  | directive :: rest =>
    if directive = "v" then handle_v obj rest
    else if directive = "vn" then handle_vn obj rest
    else if directive = "vt" then handle_vt obj rest
    else if directive = "f" then handle_f obj rest
    else if directive = "o" then handle_o obj rest
    else obj

/-- The line loop of `import_obj::import_file`: lines starting with `#` are
skipped, others dispatched through `handle`. -/
def parseObjLines (lines : List String) : WFObjectState :=
  lines.foldl (fun obj line => if line.data.head? = some '#' then obj else obj.handle line)
    WFObjectState.new

/-- f32 `as u16` cast after the `* (65536.0 - 1.0)` texture quantization:
saturating, truncating toward zero (equal to floor-then-clamp on the clamped
range). -/
def quantU16 (q : ℚ) : Nat := (min 65535 (max 0 ⌊q⌋)).toNat

/-- `server_bufferbuilder::VertexTexture` as used by the importer, f32 fields
over ℚ. -/
structure VertexTexture where
  position : ℚ × ℚ × ℚ
  normal : ℚ × ℚ × ℚ
  texture : Nat × Nat
deriving DecidableEq, BEq

/-- `import_obj::assemble_vertex`.  The source indexes the directive lists
with `x as usize` and panics when the resolved index is out of range (or
negative); this model totalizes those lookups with a zero default — every
theorem below only evaluates it at in-range indices, where the two agree. -/
def assemble_vertex (obj : WFObjectState) (f : FaceDef) : VertexTexture :=
  { position := (f.v.map fun x => obj.vert_list.getD x.toNat (0, 0, 0)).getD (0, 0, 0),
    normal := (f.n.map fun x => obj.normal_list.getD x.toNat (0, 0, 0)).getD (0, 0, 0),
    texture :=
      (f.t.map fun x =>
        let source := obj.tex_list.getD x.toNat (0, 0, 0)
        (quantU16 (source.1 * (65536 - 1)), quantU16 (source.2.1 * (65536 - 1)))).getD (0, 0) }

/-- `import_obj::PackedObj`, generic in the vertex payload so that theorems
about emitted indices hold for every vertex-assembly function. -/
structure PackedObj (V : Type) where
  name : String
  verts : List V
  faces : List (List Nat)
deriving DecidableEq

/-- Loop state of `pack_wf_state`: the `(v,t,n)`-triple dedup map
(`face_remapper`), the in-progress face corner cache, the per-object vertex
counter, and the per-object vertex/triangle accumulators. -/
structure PackLoop (V : Type) where
  remapper : List (FaceDef × Nat)
  cache : List Nat
  counter : Nat
  verts : List V
  faces : List (List Nat)

/-- One marker step of the inner loop of `pack_wf_state`: a corner is mapped
through `face_remapper.entry(..).or_insert_with(..)` (pushing a fresh vertex
when absent); an end marker flushes a 3-corner cache as one triangle and a
4-corner cache through the quad splitter (`compute_quad` in the source,
passed here as `cq`), then clears the cache. -/
def packStep {V : Type} (assemble : FaceDef → V)
    (cq : List Nat → List V → List Nat × List Nat) (s : PackLoop V) :
    FaceMarker → PackLoop V
  | .Def f =>
    match s.remapper.lookup f with
    | some idx => { s with cache := s.cache ++ [idx] }
    | none =>
      { s with
        verts := s.verts ++ [assemble f],
        remapper := s.remapper ++ [(f, s.counter)],
        cache := s.cache ++ [s.counter],
        counter := s.counter + 1 }
  | .End =>
    let s' :=
      if s.cache.length = 3 then { s with faces := s.faces ++ [s.cache] }
      else if s.cache.length = 4 then
        let q := cq s.cache s.verts
        { s with faces := s.faces ++ [q.1, q.2] }
      else s
    { s' with cache := [] }

/-- The per-entry loop of `pack_wf_state` over the (name, face list) entries
of `obj_face_list`: `this_face_cache`, `counter`, `vert_list` and `faces` are
reset for each object, but `face_remapper` is NOT — it is threaded across
entries exactly as in the source. -/
def pack_entries {V : Type} (assemble : FaceDef → V)
    (cq : List Nat → List V → List Nat × List Nat)
    (entries : List (String × List FaceMarker)) : List (PackedObj V) :=
  (entries.foldl
    (fun (acc : List (FaceDef × Nat) × List (PackedObj V)) entry =>
      let s := entry.2.foldl (packStep assemble cq)
        { remapper := acc.1, cache := [], counter := 0, verts := [], faces := [] }
      (s.remapper, acc.2 ++ [⟨entry.1, s.verts, s.faces⟩]))
    ([], [])).2

/-- `import_obj::pack_wf_state`: flush the trailing object, then pack every
entry of `obj_face_list`.  The source iterates a `HashMap` in unspecified
order; this model iterates bindings in insertion order (theorems that depend
on the order also treat the other orders explicitly via `pack_entries`). -/
def pack_wf_state {V : Type} (assemble : WFObjectState → FaceDef → V)
    (cq : List Nat → List V → List Nat × List Nat) (obj : WFObjectState) :
    List (PackedObj V) :=
  let obj := push_object obj
  pack_entries (assemble obj) cq obj.obj_face_list

/-- What `compute_quad` does extensionally for every input (proved below as
`compute_quad_always_first_corner`): fan-triangulate from the FIRST corner.
Used to instantiate the `cq` parameter of `pack_wf_state` in executable
theorems. -/
def quad_fan_first {V : Type} (idx : List Nat) (_vs : List V) : List Nat × List Nat :=
  ([idx.getD 0 0, idx.getD 1 0, idx.getD 2 0], [idx.getD 0 0, idx.getD 2 0, idx.getD 3 0])

/-! ## Scenes and the tag/scene state machine (src/scene.rs, src/platter_state.rs) -/

/-- `scene::Scene`, restricted to the fields the state machine reads: the
published HTTP asset ids (whose removal `Scene::drop` requests) and the
entity references of `root.parts` (numbered in creation order).  The
transform fields live in the real-geometry model further below. -/
structure SceneM where
  published : List Nat
  rootParts : List Nat
deriving DecidableEq

/-- Result of `import_obj::import_file` on a readable file: the scene and the
asset ids passed to `add_asset` during the import, in order.  In the source
`published` is created as an empty `Vec` (line 52) and NEVER appended to, so
the returned scene's `published` list is `[]` even though one asset id is
created and `add_asset` called per packed object; `root.parts` receives one
entity per packed object. -/
structure ObjImport where
  scene : SceneM
  addCalls : List Nat
deriving DecidableEq

/-- `import_obj::import_file` on the given file lines (file IO modelled by
the line list; asset ids and entity references numbered in creation order).
The quad splitter is instantiated with `quad_fan_first`, which
`compute_quad_always_first_corner` below proves extensionally equal to the
source's `compute_quad` on every 4-corner cache. -/
def import_obj_file (lines : List String) : ObjImport :=
  let all_objs := pack_wf_state assemble_vertex quad_fan_first (parseObjLines lines)
  { scene := { published := [], rootParts := List.range all_objs.length },
    addCalls := List.range all_objs.length }

/-- `platter_state::PlatterState`, restricted to the registry fields
(`init`, the server pointer and the method list play no part in the claims):
scene registry, entity→scene reverse map, monotonic id counter, and the
tag→scene-id-set map. -/
structure PlatterStateM where
  items : List (Nat × SceneM)
  root_to_item : List (Nat × Nat)
  next_item_id : Nat
  source_map : List (Tag × List Nat)
deriving DecidableEq

/-- `PlatterState::new`: empty registry. -/
def PlatterStateM.new : PlatterStateM :=
  { items := [], root_to_item := [], next_item_id := 0, source_map := [] }

/-- `PlatterState::add_object`.  `none` models the panic of
`o.root.parts.first().unwrap()` on a scene with no root parts.  Note the
source records the new id under the tag only when the tag ALREADY has an
entry in `source_map` (`if let Some(list) = self.source_map.get_mut(&sid)`);
no code path in the repository ever creates such an entry.  (The `if false`
rescale block is dead code and omitted.) -/
def add_object (st : PlatterStateM) (o : SceneM) (source : Option Tag) :
    Option (PlatterStateM × Nat) :=
  let id := st.next_item_id
  let st := { st with next_item_id := st.next_item_id + 1 }
  match o.rootParts.head? with
  | none => none
  | some ent =>
    let st := { st with root_to_item := assocInsert ent id st.root_to_item }
    let st := { st with items := assocInsert id o st.items }
    let st :=
      match source with
      | some sid =>
        match st.source_map.lookup sid with
        | some list =>
          { st with
            source_map := assocInsert sid (if id ∈ list then list else list ++ [id]) st.source_map }
        | none => st
      | none => st
    some (st, id)

/-- `PlatterState::remove_object`.  `none` models the two `unwrap` panics
(missing id / empty `root.parts`).  Removing the scene from `items` drops it,
which runs `Scene::drop` (src/scene.rs): one `remove_asset` call per
published id — returned here as the list of removal calls. -/
def remove_object (st : PlatterStateM) (id : Nat) : Option (PlatterStateM × List Nat) :=
  match st.items.lookup id with
  | none => none
  | some scene =>
    match scene.rootParts.head? with
    | none => none
    | some ent =>
      let st := { st with root_to_item := (assocRemove ent st.root_to_item).2 }
      let st := { st with items := (assocRemove id st.items).2 }
      some (st, scene.published)

/-- `PlatterState::clear_source`: `self.source_map.remove(&source)?` — when
the tag has no entry the function returns immediately having changed nothing
(and made no removal calls); otherwise every recorded scene id is removed and
the `remove_asset` calls of the dropped scenes are concatenated in order. -/
def clear_source (st : PlatterStateM) (source : Tag) : Option (PlatterStateM × List Nat) :=
  match assocRemove source st.source_map with
  | (none, _) => some (st, [])
  | (some list, sm) =>
    let st := { st with source_map := sm }
    list.foldlM
      (fun (acc : PlatterStateM × List Nat) id =>
        (remove_object acc.1 id).map fun r => (r.1, acc.2 ++ r.2))
      (st, [])

/-- `PlatterState::import_file` + `handle_import` on a `LoadFile` command for
a readable `.obj` file (the `PlatterCommand::LoadFile` arm of
`handle_command` with a file path): import, then `add_object`.  Returns the
new state together with the `add_asset` calls the import made; `none` models
the `add_object` panic. -/
def load_file_command (st : PlatterStateM) (lines : List String) (source : Option Tag) :
    Option (PlatterStateM × List Nat) :=
  let res := import_obj_file lines
  (add_object st res.scene source).map fun r => (r.1, res.addCalls)

/-- The `PlatterCommand::ClearTag` arm of `handle_command`:
`this.clear_source(tag)` (its `Option` result is discarded there; the panic
paths inside surface as `none` here). -/
def clear_tag_command (st : PlatterStateM) (tag : Tag) : Option (PlatterStateM × List Nat) :=
  clear_source st tag

/-! ## Concrete OBJ inputs used by the theorems -/

/-- A minimal readable OBJ: one triangle, no object name. -/
def triLines : List String := ["v 0 0 0", "v 1 0 0", "v 0 1 0", "f 1 2 3"]

/-- A readable OBJ with vertex data but no face directives. -/
def vertOnlyLines : List String := ["v 0 0 0"]

/-- Two named objects whose faces share the `(v,t,n)` triples `1` and `2`. -/
def twoObjLines : List String :=
  ["v 0 0 0", "v 1 0 0", "v 0 1 0", "v 0 0 1", "o A", "f 1 2 3", "o B", "f 1 2 4"]

/-! ## Real geometry: quad concavity scan (src/import_obj.rs) and the scene
transform (src/scene.rs, src/methods.rs)

f32 vector/quaternion arithmetic (`normalize`, `acos`, `sqrt`) is modelled
over ℝ.  Every concrete instance below keeps a margin far larger than any
f32 rounding error, so sign/comparison results agree with the f32 run. -/

noncomputable section

/-- `nalgebra_glm::Vec3` (f32 three-vector) over ℝ. -/
structure Vec3R where
  x : ℝ
  y : ℝ
  z : ℝ

/-- Componentwise vector difference. -/
def vsub (a b : Vec3R) : Vec3R := ⟨a.x - b.x, a.y - b.y, a.z - b.z⟩

/-- Componentwise vector sum. -/
def vadd (a b : Vec3R) : Vec3R := ⟨a.x + b.x, a.y + b.y, a.z + b.z⟩

/-- `Vec3::dot`. -/
def dotR (a b : Vec3R) : ℝ := a.x * b.x + a.y * b.y + a.z * b.z

/-- `Vec3::norm`. -/
def normR (a : Vec3R) : ℝ := Real.sqrt (dotR a a)

/-- `Vec3::normalize`: divide by the norm. -/
def normalizeR (a : Vec3R) : Vec3R := ⟨a.x / normR a, a.y / normR a, a.z / normR a⟩

/-- The angle sum `get_concave_vertex` computes for one window `w` over the
vertex buffer `vs` (here as the list of positions): with `v = vs[w[0]]`,
`v2 = vs[w[1]]`, `v1 = vs[w[2]]`, `v0 = vs[w[3]]`,
`acos(left·diag) + acos(right·diag)` for the normalized `left = v0 - v`,
`diag = v1 - v`, `right = v2 - v`.  Out-of-range indices panic in the
source; the `getD` default is never reached by any theorem below. -/
def quadWindowAngle (vs : List Vec3R) (w : List Nat) : ℝ :=
  let v := vs.getD (w.getD 0 0) ⟨0, 0, 0⟩
  let v2 := vs.getD (w.getD 1 0) ⟨0, 0, 0⟩
  let v1 := vs.getD (w.getD 2 0) ⟨0, 0, 0⟩
  let v0 := vs.getD (w.getD 3 0) ⟨0, 0, 0⟩
  Real.arccos (dotR (normalizeR (vsub v0 v)) (normalizeR (vsub v1 v))) +
    Real.arccos (dotR (normalizeR (vsub v2 v)) (normalizeR (vsub v1 v)))

/-- Rust `slice::windows(k)`: all contiguous length-`k` sub-slices, in
order (empty when the slice is shorter than `k`). -/
def listWindows {α : Type} (k : Nat) (l : List α) : List (List α) :=
  if l.length < k then []
  else (List.range (l.length - k + 1)).map fun i => (l.drop i).take k

open Classical in
/-- The `for window in indicies.windows(4)` loop of `get_concave_vertex`:
the first window whose angle sum exceeds `PI`, if any. -/
def firstReflexWindow (vs : List Vec3R) : List (List Nat) → Option (List Nat)
  | [] => none
  | w :: ws =>
    if quadWindowAngle vs w > Real.pi then some w else firstReflexWindow vs ws

/-- `import_obj::get_concave_vertex`: return the first window passing the
angle test, else fall back to `[indicies[0], indicies[1], indicies[2],
indicies[3]]`. -/
def get_concave_vertex (indicies : List Nat) (vs : List Vec3R) : List Nat :=
  match firstReflexWindow vs (listWindows 4 indicies) with
  | some w => [w.getD 0 0, w.getD 1 0, w.getD 2 0, w.getD 3 0]
  | none => [indicies.getD 0 0, indicies.getD 1 0, indicies.getD 2 0, indicies.getD 3 0]

/-- `import_obj::compute_quad`: fan triangles `(s0,s1,s2)` and `(s0,s2,s3)`
from the start vertex chosen by `get_concave_vertex` (the source asserts the
index slice has length 4). -/
def compute_quad (indicies : List Nat) (vs : List Vec3R) : List Nat × List Nat :=
  let start_vertex := get_concave_vertex indicies vs
  ([start_vertex.getD 0 0, start_vertex.getD 1 0, start_vertex.getD 2 0],
   [start_vertex.getD 0 0, start_vertex.getD 2 0, start_vertex.getD 3 0])

/-- Two triangles "share the diagonal through corners `a`,`b`" when both
contain both endpoints. -/
def sharesDiagonal (t1 t2 : List Nat) (a b : Nat) : Prop :=
  a ∈ t1 ∧ b ∈ t1 ∧ a ∈ t2 ∧ b ∈ t2

/-- A planar dart (non-convex quad) whose unique reflex corner is corner 1:
`(-1,1,0), (0,0,0), (1,1,0), (0,-1,0)`. -/
def dartVs : List Vec3R := [⟨-1, 1, 0⟩, ⟨0, 0, 0⟩, ⟨1, 1, 0⟩, ⟨0, -1, 0⟩]

/-- `nalgebra::Quaternion<f32>` over ℝ; `QuatR.mk w x y z` is
`Quaternion::new(w, i, j, k)`. -/
structure QuatR where
  w : ℝ
  x : ℝ
  y : ℝ
  z : ℝ

/-- Squared quaternion norm. -/
def normSqQ (q : QuatR) : ℝ := q.w ^ 2 + q.x ^ 2 + q.y ^ 2 + q.z ^ 2

/-- Quaternion norm. -/
def normQ (q : QuatR) : ℝ := Real.sqrt (normSqQ q)

/-- `UnitQuaternion::from_quaternion` = `Unit::new_normalize`: divide every
component by the norm. -/
def normalizeQ (q : QuatR) : QuatR := ⟨q.w / normQ q, q.x / normQ q, q.y / normQ q, q.z / normQ q⟩

/-- A 3×3 f32 matrix over ℝ (row i, column j). -/
structure Mat3 where
  m00 : ℝ
  m01 : ℝ
  m02 : ℝ
  m10 : ℝ
  m11 : ℝ
  m12 : ℝ
  m20 : ℝ
  m21 : ℝ
  m22 : ℝ

/-- `UnitQuaternion::to_rotation_matrix` (nalgebra): the standard rotation
matrix of a quaternion `(w,x,y,z)`.  Valid as a rotation only for unit
quaternions; the claims' "matrix of q itself" is this same formula applied to
the raw `q`. -/
def rotMat (q : QuatR) : Mat3 :=
  { m00 := 1 - 2 * (q.y ^ 2 + q.z ^ 2), m01 := 2 * (q.x * q.y - q.z * q.w),
    m02 := 2 * (q.y * q.w + q.x * q.z),
    m10 := 2 * (q.x * q.y + q.z * q.w), m11 := 1 - 2 * (q.x ^ 2 + q.z ^ 2),
    m12 := 2 * (q.y * q.z - q.x * q.w),
    m20 := 2 * (q.x * q.z - q.y * q.w), m21 := 2 * (q.x * q.w + q.y * q.z),
    m22 := 1 - 2 * (q.x ^ 2 + q.y ^ 2) }

/-- Matrix product. -/
def mat3Mul (a b : Mat3) : Mat3 :=
  { m00 := a.m00 * b.m00 + a.m01 * b.m10 + a.m02 * b.m20,
    m01 := a.m00 * b.m01 + a.m01 * b.m11 + a.m02 * b.m21,
    m02 := a.m00 * b.m02 + a.m01 * b.m12 + a.m02 * b.m22,
    m10 := a.m10 * b.m00 + a.m11 * b.m10 + a.m12 * b.m20,
    m11 := a.m10 * b.m01 + a.m11 * b.m11 + a.m12 * b.m21,
    m12 := a.m10 * b.m02 + a.m11 * b.m12 + a.m12 * b.m22,
    m20 := a.m20 * b.m00 + a.m21 * b.m10 + a.m22 * b.m20,
    m21 := a.m20 * b.m01 + a.m21 * b.m11 + a.m22 * b.m21,
    m22 := a.m20 * b.m02 + a.m21 * b.m12 + a.m22 * b.m22 }

/-- Matrix transpose. -/
def mat3T (a : Mat3) : Mat3 :=
  { m00 := a.m00, m01 := a.m10, m02 := a.m20,
    m10 := a.m01, m11 := a.m11, m12 := a.m21,
    m20 := a.m02, m21 := a.m12, m22 := a.m22 }

/-- The identity matrix. -/
def mat3Id : Mat3 :=
  { m00 := 1, m01 := 0, m02 := 0, m10 := 0, m11 := 1, m12 := 0, m20 := 0, m21 := 0, m22 := 1 }

/-- Matrix–vector application. -/
def mat3Apply (m : Mat3) (v : Vec3R) : Vec3R :=
  ⟨m.m00 * v.x + m.m01 * v.y + m.m02 * v.z,
   m.m10 * v.x + m.m11 * v.y + m.m12 * v.z,
   m.m20 * v.x + m.m21 * v.y + m.m22 * v.z⟩

/-- The upper-left 3×3 of `Scale3::to_homogeneous`. -/
def diagM (s : Vec3R) : Mat3 :=
  { m00 := s.x, m01 := 0, m02 := 0, m10 := 0, m11 := s.y, m12 := 0,
    m20 := 0, m21 := 0, m22 := s.z }

/-- A 4×4 matrix whose bottom row is `(0,0,0,1)`, as its linear part and
translation column.  Both factors of `update_transform` have this shape, so
their 4×4 product is fully captured by `affineMul`. -/
structure AffineM where
  linear : Mat3
  translation : Vec3R

/-- `Isometry3::to_homogeneous`: rotation block plus translation column. -/
def isoToHomogeneous (r : Mat3) (t : Vec3R) : AffineM := ⟨r, t⟩

/-- `Scale3::to_homogeneous`: diagonal block, zero translation. -/
def scaleToHomogeneous (s : Vec3R) : AffineM := ⟨diagM s, ⟨0, 0, 0⟩⟩

/-- The 4×4 product of two bottom-row-`(0,0,0,1)` matrices. -/
def affineMul (a b : AffineM) : AffineM :=
  ⟨mat3Mul a.linear b.linear, vadd (mat3Apply a.linear b.translation) a.translation⟩

/-- The transform-bearing fields of `scene::Scene`: position
(`Translation3`), rotation (`UnitQuaternion`, stored already normalized) and
scale (`Scale3`). -/
structure SceneTransform where
  position : Vec3R
  rotation : QuatR
  scale : Vec3R

/-- `Scene::new`: identity position/rotation/scale. -/
def SceneTransform.init : SceneTransform := ⟨⟨0, 0, 0⟩, ⟨1, 0, 0, 0⟩, ⟨1, 1, 1⟩⟩

/-- `Scene::set_rotation`: `self.rotation = UnitQuaternion::from_quaternion(q)`
— the supplied quaternion is NORMALIZED on the way in. -/
def set_rotation (s : SceneTransform) (q : QuatR) : SceneTransform :=
  { s with rotation := normalizeQ q }

/-- `Scene::update_transform`: `Isometry3::from_parts(position, rotation)
.to_homogeneous() * scale.to_homogeneous()` — the matrix patched onto the
root entity. -/
def update_transform (s : SceneTransform) : AffineM :=
  affineMul (isoToHomogeneous (rotMat s.rotation) s.position) (scaleToHomogeneous s.scale)

/-- The `set_rotation` remote method (src/methods.rs): the sanitized client
array `[q0,q1,q2,q3]` (= `[x,y,z,w]`) becomes `Quaternion::new(q[3], q[0],
q[1], q[2])`.  ℝ has no NaN, so the inputs here are the post-sanitization
values. -/
def method_set_rotation (s : SceneTransform) (q0 q1 q2 q3 : ℝ) : SceneTransform :=
  set_rotation s ⟨q3, q0, q1, q2⟩

end

/-! ## Theorems -/

/-- Claim C1: the claim says that after a `LoadFile` carrying a tag whose
successful import completes, the tag→scene-id-set map contains the new scene
id under that tag.  On the code this FAILS: `add_object` inserts only into an already
existing `source_map` entry and no code path ever creates one, so loading
the one-triangle OBJ under tag 7 from a fresh state registers scene 0 in
`items` (the import succeeded) while `source_map` stays empty. -/
theorem C1_tag_never_recorded :
    load_file_command PlatterStateM.new triLines (some 7) =
      some ({ items := [(0, { published := [], rootParts := [0] })],
              root_to_item := [(0, 0)],
              next_item_id := 1,
              source_map := [] }, [0]) := by
  decide

/-- Claim C2: the claim says that after `ClearTag t` every asset id published
for a scene recorded under `t` has had `remove_asset` called exactly once.
On the code this FAILS: loading the one-triangle OBJ under tag 7 calls
`add_asset` for asset id 0, but `ClearTag 7` makes no `remove_asset` call at
all — the tag was never entered in `source_map` (so `clear_source` returns at
`self.source_map.remove(&source)?` and the scene is not even removed), and
the importer's `published` list is created empty and never appended to. -/
theorem C2_clear_tag_removes_no_assets :
    (load_file_command PlatterStateM.new triLines (some 7)).map (fun r => r.2) = some [0] ∧
    clear_tag_command
        { items := [(0, { published := [], rootParts := [0] })],
          root_to_item := [(0, 0)],
          next_item_id := 1,
          source_map := [] } 7 =
      some ({ items := [(0, { published := [], rootParts := [0] })],
              root_to_item := [(0, 0)],
              next_item_id := 1,
              source_map := [] }, []) := by
  constructor
  · decide
  · decide

/-- Claim C6: the claim says the `(v,t,n)` dedup map is scoped to each
object's vertex buffer, so every emitted triangle index is in range even when
two named objects share a triple.  On the code this FAILS: `face_remapper` is
never cleared between objects while `vert_list`/`counter` are, so on
`twoObjLines` the object packed second reuses the first object's cached
indices — object "B" gets the face `[0, 1, 0]` over a vertex buffer of
length 1 (index 1 is out of range).  The violation occurs under either
iteration order of the `obj_face_list` hash map. -/
theorem C6_dedup_map_leaks_across_objects :
    (pack_wf_state assemble_vertex quad_fan_first (parseObjLines twoObjLines)).map
        (fun p => (p.name, p.verts.length, p.faces)) =
      [("A", 3, [[0, 1, 2]]), ("B", 1, [[0, 1, 0]])] ∧
    ¬(∀ p ∈ pack_wf_state assemble_vertex quad_fan_first (parseObjLines twoObjLines),
        ∀ face ∈ p.faces, ∀ i ∈ face, i < p.verts.length) ∧
    ¬(∀ p ∈ pack_entries (assemble_vertex (push_object (parseObjLines twoObjLines)))
          quad_fan_first (push_object (parseObjLines twoObjLines)).obj_face_list.reverse,
        ∀ face ∈ p.faces, ∀ i ∈ face, i < p.verts.length) := by
  refine ⟨by decide, by decide, by decide⟩

/-- Claim C7: the claim says a `v` line with exactly 4 numeric tokens
`x y z w` stores `[x/w, y/w, z/w]`.  On the code this FAILS: the loop
variable `c` records the index of the LAST token (3 for four tokens), so the
`4 =>` homogeneous-divide arm fires only for five-token lines and `v 1 2 3 2`
stores `[1, 2, 3]` undivided.  The six-token half of the claim does hold
(`[x, y, z]` undivided), though through fall-through: the `6 =>` color arm is
unreachable (`c` is at most 5). -/
theorem C7_w_divide_off_by_one :
    (handle_v WFObjectState.new ["1", "2", "3", "2"]).vert_list = [(1, 2, 3)] ∧
    ((1 : ℚ), (2 : ℚ), (3 : ℚ)) ≠ ((1 : ℚ) / 2, (1 : ℚ), (3 : ℚ) / 2) ∧
    (handle_v WFObjectState.new ["1", "2", "3", "2", "9"]).vert_list = [(1 / 2, 1, 3 / 2)] ∧
    (handle_v WFObjectState.new ["1", "2", "3", "2", "9", "8"]).vert_list = [(1, 2, 3)] := by
  refine ⟨?_, by norm_num, ?_, ?_⟩ <;>
    simp +decide [handle_v, WFObjectState.new, parseRat, splitPred, List.enum]

/-- Claim C10: a readable OBJ with vertex data but no face directives imports
successfully into a scene with no root parts (`pack_wf_state` packs no
objects, so `import_file` pushes no entities), and `add_object` then panics
on `o.root.parts.first().unwrap()` (modelled by the `none` result) instead of
the file being logged and skipped. -/
theorem C10_vertex_only_obj_panics_add_object :
    (import_obj_file vertOnlyLines).scene.rootParts = [] ∧
    add_object PlatterStateM.new (import_obj_file vertOnlyLines).scene none = none := by
  refine ⟨by decide, by decide⟩

/-- Claim C3: with `latest_only = true` and `organize_by_dir = false`, every
sequence of file-arrival events makes the watcher emit `Clear(tag),
Load(f1), Clear(tag), Load(f2), ...` — each load immediately preceded by a
clear of the watcher's tag. -/
theorem C3_latest_only_clear_precedes_each_load (dir : Directory) (tag : Tag)
    (latest : Option FsPath) (fs : List FsPath)
    (h1 : dir.latest_only = true) (h2 : dir.organize_by_dir = false) :
    (watcherRun dir tag latest (fs.map WatchEvent.fileArrived)).1 =
      fs.flatMap fun f => [WatchCommand.clearTag tag, WatchCommand.loadFile f (some tag)] := by
  induction fs generalizing latest with
  | nil => rfl
  | cons f fs ih => simp [watcherRun, watcherStep, handle_new_file, h1, h2, ih]

/-- Witness for C3 at a concrete latest-only watcher and two file events. -/
theorem C3_witness :
    (Directory.mk ["w"] false true false).latest_only = true ∧
    (Directory.mk ["w"] false true false).organize_by_dir = false ∧
    (watcherRun (Directory.mk ["w"] false true false) 5 none
        ([["w", "a"], ["w", "b"]].map WatchEvent.fileArrived)).1 =
      [["w", "a"], ["w", "b"]].flatMap
        fun f => [WatchCommand.clearTag 5, WatchCommand.loadFile f (some 5)] :=
  ⟨rfl, rfl, C3_latest_only_clear_precedes_each_load _ 5 none _ rfl rfl⟩

/-- With `organize_by_dir && latest_only`, the watcher's tracked
`latest_dir` after any event sequence is the head path of the last
folder-creation event (file events leave it unchanged). -/
theorem watcherRun_latest_tracks_folders (dir : Directory) (tag : Tag)
    (h1 : dir.organize_by_dir = true) (h2 : dir.latest_only = true) :
    ∀ (es : List WatchEvent) (init : Option FsPath),
      (watcherRun dir tag init es).2 =
        es.foldl
          (fun acc e =>
            match e with | .folderCreated paths => paths.head? | .fileArrived _ => acc)
          init := by
  intro es
  induction es with
  | nil => intro init; rfl
  | cons e es ih =>
    intro init
    cases e with
    | fileArrived p => simpa [watcherRun, watcherStep] using ih init
    | folderCreated ps => simp [watcherRun, watcherStep, h1, h2, ih]

/-- Claim C4 as stated is FALSE on the code: with `organize_by_dir = true`
but `latest_only = false`, folder creation never updates `latest_dir` (the
update is guarded by `organize_by_dir && latest_only`), so a file that
arrives under the most-recently-created subdirectory emits NO command at
all, where the claim demands exactly one Load. -/
theorem C4_counterexample :
    lastCreatedDir
        [WatchEvent.folderCreated [["w", "d"]], WatchEvent.fileArrived ["w", "d", "f"]] =
      some ["w", "d"] ∧
    (["w", "d"] : FsPath).isPrefixOf ["w", "d", "f"] = true ∧
    (watcherRun (Directory.mk ["w"] false false true) 5 none
        [WatchEvent.folderCreated [["w", "d"]], WatchEvent.fileArrived ["w", "d", "f"]]).1 =
      [] := by
  refine ⟨by decide, by decide, by decide⟩

/-- Claim C4 (amended): for every watcher with `organize_by_dir = true` AND
`latest_only = true`, the tracked current subdirectory equals the
most-recently-created one, a file event before any folder exists or outside
the current subdirectory emits no command, and a file event under the
current subdirectory emits exactly one Load for that path. -/
theorem C4_organize_by_dir_confinement (dir : Directory) (tag : Tag)
    (es : List WatchEvent) (p : FsPath)
    (h1 : dir.organize_by_dir = true) (h2 : dir.latest_only = true) :
    (watcherRun dir tag none es).2 = lastCreatedDir es ∧
    (lastCreatedDir es = none →
      handle_new_file dir tag (watcherRun dir tag none es).2 p = []) ∧
    (∀ lp, lastCreatedDir es = some lp → lp.isPrefixOf p = true →
      handle_new_file dir tag (watcherRun dir tag none es).2 p =
        [WatchCommand.loadFile p (some tag)]) ∧
    (∀ lp, lastCreatedDir es = some lp → lp.isPrefixOf p = false →
      handle_new_file dir tag (watcherRun dir tag none es).2 p = []) := by
  have hst : (watcherRun dir tag none es).2 = lastCreatedDir es :=
    watcherRun_latest_tracks_folders dir tag h1 h2 es none
  refine ⟨hst, ?_, ?_, ?_⟩
  · intro h; rw [hst, h]; simp [handle_new_file, h1]
  · intro lp hlp hpre; rw [hst, hlp]; simp [handle_new_file, h1, hpre]
  · intro lp hlp hpre; rw [hst, hlp]; simp [handle_new_file, h1, hpre]

/-- Witness for the amended C4 at a concrete organize-by-dir + latest-only
watcher: after creating subdirectory `w/d`, a file under it emits exactly
one Load. -/
theorem C4_witness :
    (Directory.mk ["w"] false true true).organize_by_dir = true ∧
    (Directory.mk ["w"] false true true).latest_only = true ∧
    handle_new_file (Directory.mk ["w"] false true true) 5
        (watcherRun (Directory.mk ["w"] false true true) 5 none
          [WatchEvent.folderCreated [["w", "d"]]]).2 ["w", "d", "f"] =
      [WatchCommand.loadFile ["w", "d", "f"] (some 5)] := by
  refine ⟨rfl, rfl, ?_⟩
  exact (C4_organize_by_dir_confinement (Directory.mk ["w"] false true true) 5
      [WatchEvent.folderCreated [["w", "d"]]] ["w", "d", "f"] rfl rfl).2.2.1
    ["w", "d"] (by decide) (by decide)

/-- Claim C8: a face corner index `-m` (m > 0) resolves, at the moment the
face line is parsed, to `length - m` of the respective directive list (so
`-1` is the last-defined element), and a positive 1-based index `q` resolves
to `q - 1`; `handle_f` sanitizes every corner against the directive lists as
they are when the `f` line is handled. -/
theorem C8_index_resolution (vl nl tl : List (ℚ × ℚ × ℚ)) (m q : Int)
    (hm : 0 < m) (hq : 0 < q) (obj : WFObjectState) (line : List String) :
    FaceDef.sanitize ⟨some (-m), some (-m), some (-m)⟩ vl nl tl =
      ⟨some ((vl.length : Int) - m), some ((tl.length : Int) - m),
        some ((nl.length : Int) - m)⟩ ∧
    FaceDef.sanitize ⟨some q, some q, some q⟩ vl nl tl =
      ⟨some (q - 1), some (q - 1), some (q - 1)⟩ ∧
    (handle_f obj line).last_face_list =
      obj.last_face_list ++
        (line.map fun f =>
          FaceMarker.Def ((FaceDef.new f).sanitize obj.vert_list obj.normal_list obj.tex_list)) ++
        [FaceMarker.End] := by
  have hneg : -m < 0 := by omega
  have hpos : ¬q < 0 := by omega
  refine ⟨?_, ?_, rfl⟩
  · simp only [FaceDef.sanitize, Option.map_some', if_pos hneg, FaceDef.mk.injEq,
      Option.some.injEq] <;> omega
  · simp only [FaceDef.sanitize, Option.map_some', if_neg hpos, FaceDef.mk.injEq,
      Option.some.injEq]

/-- Witness for C8: with 1 vertex, 0 normals and 2 texture coordinates in
scope, a corner of all `-1` indices resolves to `(0, 1, -1)` and one of all `2` indices to `(1, 1, 1)`. -/
theorem C8_witness :
    (0 : Int) < 1 ∧ (0 : Int) < 2 ∧
    FaceDef.sanitize ⟨some (-1), some (-1), some (-1)⟩ [(0, 0, 0)] []
        [(1, 1, 1), (2, 2, 2)] = ⟨some 0, some 1, some (-1)⟩ ∧
    FaceDef.sanitize ⟨some 2, some 2, some 2⟩ [(0, 0, 0)] [] [(1, 1, 1), (2, 2, 2)] =
      ⟨some 1, some 1, some 1⟩ := by
  have h := C8_index_resolution [(0, 0, 0)] [] [(1, 1, 1), (2, 2, 2)] 1 2
    (by norm_num) (by norm_num) WFObjectState.new []
  exact ⟨by norm_num, by norm_num, by simpa using h.1, by simpa using h.2.1⟩

/-- Arc-cosine of a negative value exceeds a right angle. -/
theorem arccos_gt_half {t : ℝ} (ht : t < 0) : Real.pi / 2 < Real.arccos t := by
  have h1 : Real.arcsin t < 0 := by
    by_contra h
    push_neg at h
    exact absurd (Real.arcsin_nonneg.mp h) (by linarith)
  rw [Real.arccos]
  linarith

/-- Arc-cosine of a positive value is below a right angle. -/
theorem arccos_lt_half {t : ℝ} (ht : 0 < t) : Real.arccos t < Real.pi / 2 := by
  have h1 : 0 < Real.arcsin t := Real.arcsin_pos.mpr ht
  rw [Real.arccos]
  linarith

/-- `windows(4)` of a 4-element slice yields exactly one window: the slice
itself.  This is why `get_concave_vertex` only ever examines the corner at
`indicies[0]`. -/
theorem listWindows_four {α : Type} (a b c d : α) :
    listWindows 4 [a, b, c, d] = [[a, b, c, d]] := rfl

/-- `get_concave_vertex` returns its four indices unchanged whatever the
angle test decides: the single window it can match equals the fallback. -/
theorem get_concave_vertex_eq (a b c d : Nat) (vs : List Vec3R) :
    get_concave_vertex [a, b, c, d] vs = [a, b, c, d] := by
  unfold get_concave_vertex
  rw [listWindows_four]
  by_cases h : quadWindowAngle vs [a, b, c, d] > Real.pi
  · simp [firstReflexWindow, h]
  · simp [firstReflexWindow, h]

/-- `compute_quad` always fan-triangulates from the FIRST corner,
independently of the vertex positions: the triangles are
`(i0, i1, i2)` and `(i0, i2, i3)`, sharing the `i0`–`i2` diagonal. -/
theorem compute_quad_always_first_corner (idx : List Nat) (vs : List Vec3R)
    (h : idx.length = 4) :
    compute_quad idx vs =
      ([idx.getD 0 0, idx.getD 1 0, idx.getD 2 0],
       [idx.getD 0 0, idx.getD 2 0, idx.getD 3 0]) := by
  match idx with
  | [a, b, c, d] => simp [compute_quad, get_concave_vertex_eq]

/-- Claim C5: the claim says the splitter scans all four corners for one
whose adjacent angle sum exceeds π and fan-triangulates from that reflex
corner.  On the code this FAILS: `indicies.windows(4)` over the four indices
yields the single window `[i0,i1,i2,i3]`, and both the hit and the fallback
path return the indices unchanged, so the fan always starts at the first
corner.  Witnessed on the planar dart `(-1,1,0), (0,0,0), (1,1,0), (0,-1,0)`:
its corner 1 is reflex under the code's own angle measure (sum > π) while
corner 0 — the only corner examined — is not, yet `compute_quad` returns the
triangles `(0,1,2)`, `(0,2,3)`, which do not share the diagonal through the
reflex corner (1–3). -/
theorem C5_reflex_corner_ignored :
    Real.pi < quadWindowAngle dartVs [1, 2, 3, 0] ∧
    ¬Real.pi < quadWindowAngle dartVs [0, 1, 2, 3] ∧
    compute_quad [0, 1, 2, 3] dartVs = ([0, 1, 2], [0, 2, 3]) ∧
    ¬sharesDiagonal [0, 1, 2] [0, 2, 3] 1 3 ∧
    listWindows 4 ([0, 1, 2, 3] : List Nat) = [[0, 1, 2, 3]] := by
  refine ⟨?_, ?_, ?_, by unfold sharesDiagonal; decide, by decide⟩
  · have unf : quadWindowAngle dartVs [1, 2, 3, 0] =
        Real.arccos (dotR (normalizeR (vsub ⟨-1, 1, 0⟩ ⟨0, 0, 0⟩))
            (normalizeR (vsub ⟨0, -1, 0⟩ ⟨0, 0, 0⟩))) +
          Real.arccos (dotR (normalizeR (vsub ⟨1, 1, 0⟩ ⟨0, 0, 0⟩))
            (normalizeR (vsub ⟨0, -1, 0⟩ ⟨0, 0, 0⟩))) := by
      simp [quadWindowAngle, dartVs]
    have hd1 : dotR (normalizeR (vsub ⟨-1, 1, 0⟩ ⟨0, 0, 0⟩))
        (normalizeR (vsub ⟨0, -1, 0⟩ ⟨0, 0, 0⟩)) < 0 := by
      have hs2 : (0:ℝ) < Real.sqrt 2 := Real.sqrt_pos.mpr (by norm_num)
      simp only [dotR, normalizeR, normR, vsub]
      norm_num [Real.sqrt_one]
    have hd2 : dotR (normalizeR (vsub ⟨1, 1, 0⟩ ⟨0, 0, 0⟩))
        (normalizeR (vsub ⟨0, -1, 0⟩ ⟨0, 0, 0⟩)) < 0 := by
      have hs2 : (0:ℝ) < Real.sqrt 2 := Real.sqrt_pos.mpr (by norm_num)
      simp only [dotR, normalizeR, normR, vsub]
      norm_num [Real.sqrt_one]
    have g1 := arccos_gt_half hd1
    have g2 := arccos_gt_half hd2
    rw [unf]
    linarith
  · have unf : quadWindowAngle dartVs [0, 1, 2, 3] =
        Real.arccos (dotR (normalizeR (vsub ⟨0, -1, 0⟩ ⟨-1, 1, 0⟩))
            (normalizeR (vsub ⟨1, 1, 0⟩ ⟨-1, 1, 0⟩))) +
          Real.arccos (dotR (normalizeR (vsub ⟨0, 0, 0⟩ ⟨-1, 1, 0⟩))
            (normalizeR (vsub ⟨1, 1, 0⟩ ⟨-1, 1, 0⟩))) := by
      simp [quadWindowAngle, dartVs]
    have h4 : Real.sqrt 4 = 2 := by
      rw [show (4:ℝ) = 2 ^ 2 by norm_num, Real.sqrt_sq (by norm_num : (0:ℝ) ≤ 2)]
    have hd1 : 0 < dotR (normalizeR (vsub ⟨0, -1, 0⟩ ⟨-1, 1, 0⟩))
        (normalizeR (vsub ⟨1, 1, 0⟩ ⟨-1, 1, 0⟩)) := by
      have hs5 : (0:ℝ) < Real.sqrt 5 := Real.sqrt_pos.mpr (by norm_num)
      simp only [dotR, normalizeR, normR, vsub]
      norm_num [h4]
    have hd2 : 0 < dotR (normalizeR (vsub ⟨0, 0, 0⟩ ⟨-1, 1, 0⟩))
        (normalizeR (vsub ⟨1, 1, 0⟩ ⟨-1, 1, 0⟩)) := by
      have hs2 : (0:ℝ) < Real.sqrt 2 := Real.sqrt_pos.mpr (by norm_num)
      simp only [dotR, normalizeR, normR, vsub]
      norm_num [h4]
    have g1 := arccos_lt_half hd1
    have g2 := arccos_lt_half hd2
    rw [unf]
    linarith
  · exact compute_quad_always_first_corner [0, 1, 2, 3] dartVs rfl

/-- A nonzero quaternion divided by its norm has unit squared norm. -/
theorem normalizeQ_unit (q : QuatR) (hq : 0 < normSqQ q) : normSqQ (normalizeQ q) = 1 := by
  have hnq : 0 < normQ q := Real.sqrt_pos.mpr hq
  have hsq : normQ q ^ 2 = normSqQ q := Real.sq_sqrt (le_of_lt hq)
  obtain ⟨w, x, y, z⟩ := q
  simp only [normSqQ, normalizeQ] at *
  field_simp
  linarith [hsq]

/-- The rotation matrix of a unit quaternion is orthogonal: the resulting
transform factor is rigid. -/
theorem rotMat_orthogonal (q : QuatR) (h : normSqQ q = 1) :
    mat3Mul (rotMat q) (mat3T (rotMat q)) = mat3Id := by
  obtain ⟨w, x, y, z⟩ := q
  simp only [normSqQ] at h
  simp only [rotMat, mat3Mul, mat3T, mat3Id, Mat3.mk.injEq]
  refine ⟨?_, ?_, ?_, ?_, ?_, ?_, ?_, ?_, ?_⟩
  · linear_combination (4 * (y ^ 2 + z ^ 2)) * h
  · linear_combination (-(4 * x * y)) * h
  · linear_combination (-(4 * x * z)) * h
  · linear_combination (-(4 * x * y)) * h
  · linear_combination (4 * (x ^ 2 + z ^ 2)) * h
  · linear_combination (-(4 * y * z)) * h
  · linear_combination (-(4 * x * z)) * h
  · linear_combination (-(4 * y * z)) * h
  · linear_combination (4 * (x ^ 2 + y ^ 2)) * h

/-- Claim C9 (amended): `Scene::set_rotation` NORMALIZES the client-supplied
quaternion (`UnitQuaternion::from_quaternion` = `Unit::new_normalize`), so
for every nonzero `q` the rotation factor of the recomputed matrix is the
matrix of `q / ‖q‖` — a unit quaternion whose matrix is orthogonal — and the
published transform stays rigid, rather than being the (non-rigid for
non-unit `q`) matrix of `q` itself. -/
theorem C9_rotation_is_normalized (s : SceneTransform) (q : QuatR) (hq : 0 < normSqQ q) :
    (update_transform (set_rotation s q)).linear =
      mat3Mul (rotMat (normalizeQ q)) (diagM s.scale) ∧
    normSqQ (normalizeQ q) = 1 ∧
    mat3Mul (rotMat (normalizeQ q)) (mat3T (rotMat (normalizeQ q))) = mat3Id :=
  ⟨rfl, normalizeQ_unit q hq, rotMat_orthogonal _ (normalizeQ_unit q hq)⟩

/-- Claim C9 as stated is FALSE on the code: for the non-unit quaternion
`(w,x,y,z) = (0,2,0,0)` supplied to `set_rotation` on a fresh scene, the
republished matrix's rotation factor has `m11 = -1` (the rotation of the
NORMALIZED quaternion `(0,1,0,0)`), not the `m11 = -7` that the matrix of
`q` itself would have — the code renormalizes, so no non-rigid transform
arises. -/
theorem C9_counterexample :
    (update_transform (set_rotation SceneTransform.init ⟨0, 2, 0, 0⟩)).linear.m11 = -1 ∧
    (rotMat ⟨0, 2, 0, 0⟩).m11 = -7 ∧
    (update_transform (set_rotation SceneTransform.init ⟨0, 2, 0, 0⟩)).linear ≠
      rotMat ⟨0, 2, 0, 0⟩ := by
  have h4 : Real.sqrt 4 = 2 := by
    rw [show (4:ℝ) = 2 ^ 2 by norm_num, Real.sqrt_sq (by norm_num : (0:ℝ) ≤ 2)]
  have hn : normalizeQ ⟨0, 2, 0, 0⟩ = ⟨0, 1, 0, 0⟩ := by
    simp only [normalizeQ, normQ, normSqQ]
    norm_num [h4]
  have hm : (update_transform (set_rotation SceneTransform.init ⟨0, 2, 0, 0⟩)).linear.m11 =
      -1 := by
    simp [update_transform, set_rotation, affineMul, isoToHomogeneous, scaleToHomogeneous,
      mat3Mul, diagM, rotMat, hn, SceneTransform.init]
    norm_num
  refine ⟨hm, by norm_num [rotMat], fun hcontra => ?_⟩
  have hc := congrArg Mat3.m11 hcontra
  rw [hm] at hc
  norm_num [rotMat] at hc

/-- Witness for the amended C9 at the concrete non-unit quaternion
`(0,2,0,0)`. -/
theorem C9_witness :
    0 < normSqQ ⟨0, 2, 0, 0⟩ ∧
    normSqQ (normalizeQ ⟨0, 2, 0, 0⟩) = 1 ∧
    mat3Mul (rotMat (normalizeQ ⟨0, 2, 0, 0⟩)) (mat3T (rotMat (normalizeQ ⟨0, 2, 0, 0⟩))) =
      mat3Id := by
  have hq : 0 < normSqQ ⟨0, 2, 0, 0⟩ := by norm_num [normSqQ]
  have h := C9_rotation_is_normalized SceneTransform.init ⟨0, 2, 0, 0⟩ hq
  exact ⟨hq, h.2.1, h.2.2⟩

end Platter
